import Mathlib

/-!
Shallow embedding of the cachified-adapter-sqlite repository.

The repository adapts the cachified cache-provider contract (get, set,
delete) onto several SQLite driver libraries.  Every driver variant runs the
same logic: keys are namespaced by `buildCacheKey`, values and metadata are
stored as JSON text in a three-column table with `key` as primary key, and
`get` treats an absent row or a falsy parsed value as a cache miss.

Modeling choices:
- a table is a map from key strings to rows, which is exactly the
  observable content of an SQLite table whose `key` column is the primary key;
- the text of the `value` and `metadata` columns is modeled by its
  behaviour under `JSON.parse`: a cell either parses to a JSON value or is
  not valid JSON.  `JSON.stringify` output always parses back to the value
  it serialized, which is the only property of the concrete syntax the
  adapter relies on;
- JSON numbers are modeled as integers; fractional values behave like any
  other nonzero number in every property considered here;
- the external collaborator `totalTtl` from the cachified library is kept
  opaque: the adapters take it as a parameter, just as the source imports it;
- a synchronous driver call that throws, and an asynchronous one that
  rejects, are both modeled as `Except.error`; failures of the underlying
  database engine itself are outside the adapter and outside the model.
-/

namespace Cachified

/-- A JSON value as produced by `JSON.parse`.  An object is its ordered list
of fields, mirroring JS object semantics where field order is observable. -/
inductive Json where
  | null : Json
  | bool (b : Bool) : Json
  | num (n : Int) : Json
  | str (s : String) : Json
  | arr (elems : List Json) : Json
  | obj (fields : List (String × Json)) : Json

/-- JS falsiness of a parsed JSON value, as tested by `if (!entry.value)`:
`null`, `false`, `0` and the empty string are falsy; every array and every
object is truthy. -/
def Json.falsy : Json → Bool
  | .null => true
  | .bool b => !b
  | .num n => n == 0
  | .str s => s == ""
  | .arr _ => false
  | .obj _ => false

/-- One text cell of the `value` or `metadata` column, modeled by its
behaviour under `JSON.parse`: `jsonText j` stands for any text that parses
to the JSON value `j` (in particular the `JSON.stringify` output for `j`),
and `invalidText` stands for text that is not valid JSON. -/
inductive StoredText where
  | jsonText (j : Json) : StoredText
  | invalidText : StoredText

/-- `JSON.parse` on a stored text cell: succeeds exactly on valid JSON
text; on invalid text it throws, modeled as `Except.error`. -/
def jsonParse : StoredText → Except Unit Json
  | .jsonText j => .ok j
  | .invalidText => .error ()

/-- `JSON.stringify`: serializing a JSON value always yields text that
parses back to that same value. -/
def jsonStringify (j : Json) : StoredText :=
  .jsonText j

/-- One row of the cache table: the `value` and `metadata` text columns.
The `key` column is the index of the row in the table map. -/
structure Row where
  value : StoredText
  metadata : StoredText

/-- The observable content of the cache table: at most one row per key,
because `key` is the primary key. -/
abbrev Table := String → Option Row

/-- A table with no rows, as produced by the create-table helpers. -/
def emptyTable : Table := fun _ => none

/-- `SELECT value, metadata FROM tableName WHERE key = ?`: returns the row
stored under the key, if any. -/
def Table.selectByKey (t : Table) (k : String) : Option Row :=
  t k

/-- `INSERT OR REPLACE INTO tableName (key, value, metadata) VALUES (?, ?, ?)`:
stores the row under the key, replacing any existing row wholesale. -/
def Table.insertOrReplace (t : Table) (k : String) (r : Row) : Table :=
  fun k2 => if k2 = k then some r else t k2

/-- `DELETE FROM tableName WHERE key = ?`: removes the row stored under the
key; removing an absent key is accepted by SQLite without error. -/
def Table.deleteKey (t : Table) (k : String) : Table :=
  fun k2 => if k2 = k then none else t k2

/-- `buildCacheKey` from src/cache-key.ts.  The conditional
`keyPrefix ? ... : key` tests JS truthiness, so both an absent
(`undefined`) and an empty-string `keyPrefix` leave the key unchanged;
a nonempty one is joined with a colon. -/
def buildCacheKey (key : String) ( keyPrefix : Option String) : String :=
  match keyPrefix with
  | none => key
  | some p => if p = "" then key else p ++ ":" ++ key

/-- The number returned by the external `totalTtl` collaborator of the
cachified library: a total lifetime in milliseconds, or positive infinity
when the value never expires. -/
inductive TtlTotal where
  | finite (n : Int) : TtlTotal
  | posInf : TtlTotal

/-- The value stored in the `ttl` field of the serialized metadata,
mirroring `ttl === Number.POSITIVE_INFINITY ? null : ttl`: infinity is
stored as JSON `null`, a finite total as the number itself. -/
def TtlTotal.stored : TtlTotal → Json
  | .posInf => .null
  | .finite n => .num n

/-- The metadata object passed to `set`, a JS object given as its ordered
field list (keys are unique in an actual JS object). -/
abbrev MetadataObj := List (String × Json)

/-- The JS object spread that copies the metadata object and overwrites its
`ttl` field: every field is kept in order, with `ttl` replaced in place when
present and appended at the end otherwise. -/
def spreadWithTtl (m : MetadataObj) (x : Json) : MetadataObj :=
  if m.any (fun f => f.1 == "ttl") then
    m.map (fun f => if f.1 == "ttl" then ("ttl", x) else f)
  else
    m ++ [("ttl", x)]

/-- The entry returned by `get`: the parsed `value` and `metadata` columns. -/
structure CacheEntry where
  value : Json
  metadata : Json

/-- The entry passed to `set`: a JSON-serializable value together with a
cachified metadata object. -/
structure SetEntry where
  value : Json
  metadata : MetadataObj

/-- `get` of `nodeSqliteCacheAdapter` (src/drivers/node-sqlite.ts), a
synchronous driver: an absent row is a miss, then both columns are parsed
as JSON in order (`value` first), a thrown parse error is `Except.error`,
and a falsy parsed value is reported as a miss. -/
def nodeSqliteGet ( keyPrefix : Option String) (t : Table) (key : String) :
    Except Unit (Option CacheEntry) :=
  let cacheKey := buildCacheKey key keyPrefix
  match Table.selectByKey t cacheKey with
  | none => .ok none
  | some row =>
    match jsonParse row.value with
    | .error e => .error e
    | .ok v =>
      match jsonParse row.metadata with
      | .error e => .error e
      | .ok m =>
        let entry : CacheEntry := ⟨v, m⟩
        if entry.value.falsy then .ok none
        else .ok (some entry)

/-- `set` of `nodeSqliteCacheAdapter` (src/drivers/node-sqlite.ts): computes
the total lifetime with the external `totalTtl`, serializes the value and a
copy of the metadata whose `ttl` is overwritten with that total (infinity
becoming `null`), upserts the row, and returns the original value. -/
def nodeSqliteSet (totalTtl : MetadataObj → TtlTotal)
    ( keyPrefix : Option String) (t : Table) (key : String) (entry : SetEntry) :
    Table × Json :=
  let cacheKey := buildCacheKey key keyPrefix
  let ttl := totalTtl entry.metadata
  (Table.insertOrReplace t cacheKey
      ⟨jsonStringify entry.value,
       jsonStringify (.obj (spreadWithTtl entry.metadata ttl.stored))⟩,
   entry.value)

/-- `delete` of `nodeSqliteCacheAdapter` (src/drivers/node-sqlite.ts):
removes the row under the built cache key. -/
def nodeSqliteDelete ( keyPrefix : Option String) (t : Table) (key : String) :
    Table :=
  let cacheKey := buildCacheKey key keyPrefix
  Table.deleteKey t cacheKey

/-- `get` of `sqlite3CacheAdapter` (src/drivers/sqlite3.ts), a
callback-based driver wrapped in a promise: the settled promise is modeled
as `Except`, with rejection as `Except.error`.  The row callback fires with
no error in this model (its error argument carries underlying database
failures, which are outside the adapter); an absent row resolves to a miss,
then both columns are parsed inside the try block (`value` first), a parse
error rejects, and a falsy parsed value resolves to a miss. -/
def sqlite3Get ( keyPrefix : Option String) (t : Table) (key : String) :
    Except Unit (Option CacheEntry) :=
  let cacheKey := buildCacheKey key keyPrefix
  match Table.selectByKey t cacheKey with
  | none => .ok none
  | some row =>
    match jsonParse row.value with
    | .error e => .error e
    | .ok v =>
      match jsonParse row.metadata with
      | .error e => .error e
      | .ok m =>
        let entry : CacheEntry := ⟨v, m⟩
        if entry.value.falsy then .ok none
        else .ok (some entry)

/-- `set` of `sqlite3CacheAdapter` (src/drivers/sqlite3.ts): same statement
as the synchronous variant, wrapped in a promise that resolves with the
original value once the run callback fires without error (the error branch
carries underlying database failures, outside the model). -/
def sqlite3Set (totalTtl : MetadataObj → TtlTotal)
    ( keyPrefix : Option String) (t : Table) (key : String) (entry : SetEntry) :
    Except Unit (Table × Json) :=
  let cacheKey := buildCacheKey key keyPrefix
  let ttl := totalTtl entry.metadata
  .ok (Table.insertOrReplace t cacheKey
        ⟨jsonStringify entry.value,
         jsonStringify (.obj (spreadWithTtl entry.metadata ttl.stored))⟩,
       entry.value)

/-- `delete` of `sqlite3CacheAdapter` (src/drivers/sqlite3.ts): the delete
statement runs and the promise resolves once the callback fires without
error; the rejection branch carries underlying database failures, outside
the model. -/
def sqlite3Delete ( keyPrefix : Option String) (t : Table) (key : String) :
    Except Unit Table :=
  let cacheKey := buildCacheKey key keyPrefix
  .ok (Table.deleteKey t cacheKey)

/-- C3 counterexample: the claimed equation fails for the empty prefix —
the JS truthiness test makes `buildCacheKey` return the key unchanged
instead of prepending the colon separator. -/
theorem buildCacheKey_empty_counterexample :
    buildCacheKey "k" (some "") = "k" ∧
    buildCacheKey "k" (some "") ≠ "" ++ ":" ++ "k" := by
  constructor
  · rfl
  · decide

/-- C3 (amended): `buildCacheKey` with no prefix returns the key unchanged,
and with any nonempty prefix returns the prefix, a colon and the key. -/
theorem buildCacheKey_eq (key p : String) (hp : p ≠ "") :
    buildCacheKey key none = key ∧
    buildCacheKey key (some p) = p ++ ":" ++ key := by
  refine ⟨rfl, ?_⟩
  simp [buildCacheKey, hp]

/-- Witness for `buildCacheKey_eq` at the concrete prefix `a` and key `k`. -/
theorem buildCacheKey_eq_witness :
    "a" ≠ "" ∧
    (buildCacheKey "k" none = "k" ∧
     buildCacheKey "k" (some "a") = "a" ++ ":" ++ "k") :=
  ⟨by decide, buildCacheKey_eq "k" "a" (by decide)⟩

/-- C9: an empty-string key prefix behaves exactly like an absent one —
the built storage key is the bare key, so get, set and delete configured
with the empty prefix operate on the same rows as with no prefix at all. -/
theorem emptyKeyPrefix_behaves_like_none (t : Table) (key : String) :
    buildCacheKey key (some "") = key ∧
    nodeSqliteGet (some "") t key = nodeSqliteGet none t key ∧
    (∀ totalTtl entry, nodeSqliteSet totalTtl (some "") t key entry
        = nodeSqliteSet totalTtl none t key entry) ∧
    nodeSqliteDelete (some "") t key = nodeSqliteDelete none t key := by
  refine ⟨rfl, ?_, ?_, ?_⟩ <;>
    simp [nodeSqliteGet, nodeSqliteSet, nodeSqliteDelete, buildCacheKey]

/-- C6: deleting a previously set key makes the next get a miss — delete
removes exactly the row that set wrote, since both build the same storage
key. -/
theorem delete_then_get_misses (totalTtl : MetadataObj → TtlTotal)
    ( keyPrefix : Option String) (t : Table) (key : String) (entry : SetEntry) :
    nodeSqliteGet keyPrefix
      (nodeSqliteDelete keyPrefix
        (nodeSqliteSet totalTtl keyPrefix t key entry).1 key) key
      = .ok none := by
  simp [nodeSqliteGet, nodeSqliteDelete, nodeSqliteSet,
        Table.deleteKey, Table.selectByKey]

/-- C7: get on a key with no row in the table is a defined miss on both the
synchronous and the promise-based adapter: it returns the ok result `none`
and in particular neither throws nor rejects. -/
theorem get_absent_key ( keyPrefix : Option String) (t : Table) (key : String)
    (h : Table.selectByKey t (buildCacheKey key keyPrefix) = none) :
    nodeSqliteGet keyPrefix t key = .ok none ∧
    sqlite3Get keyPrefix t key = .ok none := by
  constructor <;> simp [nodeSqliteGet, sqlite3Get, h]

/-- Witness for `get_absent_key` on the empty table at key `k`. -/
theorem get_absent_key_witness :
    Table.selectByKey emptyTable (buildCacheKey "k" none) = none ∧
    (nodeSqliteGet none emptyTable "k" = .ok none ∧
     sqlite3Get none emptyTable "k" = .ok none) :=
  ⟨rfl, get_absent_key none emptyTable "k" rfl⟩

/-- C8: deleting a key with no row is a silent success on both adapters:
the synchronous delete returns with the table unchanged, and the
promise-based delete resolves (does not reject) with the table unchanged. -/
theorem delete_absent_key ( keyPrefix : Option String) (t : Table) (key : String)
    (h : Table.selectByKey t (buildCacheKey key keyPrefix) = none) :
    nodeSqliteDelete keyPrefix t key = t ∧
    sqlite3Delete keyPrefix t key = .ok t := by
  have hfun : Table.deleteKey t (buildCacheKey key keyPrefix) = t := by
    funext k2
    by_cases hk : k2 = buildCacheKey key keyPrefix
    · subst hk
      have h2 : t (buildCacheKey key keyPrefix) = none := by
        simpa [Table.selectByKey] using h
      simp [Table.deleteKey, h2]
    · simp [Table.deleteKey, hk]
  constructor
  · simpa [nodeSqliteDelete] using hfun
  · simp [sqlite3Delete, hfun]

/-- Witness for `delete_absent_key` on the empty table at key `k` with
prefix `p`. -/
theorem delete_absent_key_witness :
    Table.selectByKey emptyTable (buildCacheKey "k" (some "p")) = none ∧
    (nodeSqliteDelete (some "p") emptyTable "k" = emptyTable ∧
     sqlite3Delete (some "p") emptyTable "k" = .ok emptyTable) :=
  ⟨rfl, delete_absent_key (some "p") emptyTable "k" rfl⟩

/-- Appending a colon and a common key keeps distinct left parts distinct. -/
theorem colonKey_injective (a b k : String) (h : a ++ ":" ++ k = b ++ ":" ++ k) :
    a = b := by
  have hd : (a ++ ":" ++ k).data = (b ++ ":" ++ k).data := congrArg String.data h
  rw [String.data_append, String.data_append,
      String.data_append, String.data_append] at hd
  have h1 := List.append_cancel_right hd
  have h2 := List.append_cancel_right h1
  cases a
  cases b
  exact congrArg String.mk h2

/-- C1: round trip through the store.  For a truthy JSON-serializable value
and any metadata object, get after set returns the value unchanged together
with the metadata whose `ttl` field was overwritten with the `totalTtl`
total, infinity stored as `null`; this holds for the synchronous adapter
and for the promise-based one, whose set resolves with the original value. -/
theorem set_then_get_roundtrip (totalTtl : MetadataObj → TtlTotal)
    ( keyPrefix : Option String) (t : Table) (key : String)
    (v : Json) (m : MetadataObj) (hv : v.falsy = false) :
    nodeSqliteGet keyPrefix (nodeSqliteSet totalTtl keyPrefix t key ⟨v, m⟩).1 key
      = .ok (some ⟨v, .obj (spreadWithTtl m (totalTtl m).stored)⟩) ∧
    (∃ t2, sqlite3Set totalTtl keyPrefix t key ⟨v, m⟩ = .ok (t2, v) ∧
      sqlite3Get keyPrefix t2 key
        = .ok (some ⟨v, .obj (spreadWithTtl m (totalTtl m).stored)⟩)) := by
  constructor
  · simp [nodeSqliteGet, nodeSqliteSet, Table.insertOrReplace, Table.selectByKey,
          jsonParse, jsonStringify, hv]
  · refine ⟨_, rfl, ?_⟩
    simp [sqlite3Get, sqlite3Set, Table.insertOrReplace, Table.selectByKey,
          jsonParse, jsonStringify, hv]

/-- Witness for `set_then_get_roundtrip` with an infinite total lifetime:
the metadata round-trips with `ttl` stored and returned as `null`. -/
theorem set_then_get_roundtrip_witness :
    (Json.bool true).falsy = false ∧
    (nodeSqliteGet (some "p")
        (nodeSqliteSet (fun _ => .posInf) (some "p") emptyTable "k"
          ⟨.bool true, [("createdTime", .num 0)]⟩).1 "k"
      = .ok (some ⟨.bool true, .obj [("createdTime", .num 0), ("ttl", .null)]⟩) ∧
    (∃ t2, sqlite3Set (fun _ => .posInf) (some "p") emptyTable "k"
          ⟨.bool true, [("createdTime", .num 0)]⟩ = .ok (t2, .bool true) ∧
      sqlite3Get (some "p") t2 "k"
        = .ok (some ⟨.bool true, .obj [("createdTime", .num 0), ("ttl", .null)]⟩))) :=
  ⟨rfl, set_then_get_roundtrip (fun _ => .posInf) (some "p") emptyTable "k"
    (.bool true) [("createdTime", .num 0)] rfl⟩

/-- C2 counterexample: a row exists and its value column parses to the
falsy value `false`, yet get does not report a miss — the metadata column
holds invalid JSON and get fails on it before reaching the falsy test. -/
theorem falsy_value_miss_counterexample :
    Table.selectByKey
        (Table.insertOrReplace emptyTable "k"
          ⟨.jsonText (.bool false), .invalidText⟩) "k"
      = some ⟨.jsonText (.bool false), .invalidText⟩ ∧
    jsonParse (StoredText.jsonText (.bool false)) = .ok (.bool false) ∧
    (Json.bool false).falsy = true ∧
    nodeSqliteGet none
        (Table.insertOrReplace emptyTable "k"
          ⟨.jsonText (.bool false), .invalidText⟩) "k"
      ≠ .ok none ∧
    sqlite3Get none
        (Table.insertOrReplace emptyTable "k"
          ⟨.jsonText (.bool false), .invalidText⟩) "k"
      ≠ .ok none := by
  refine ⟨?_, rfl, rfl, ?_, ?_⟩
  · simp [Table.selectByKey, Table.insertOrReplace]
  · simp [nodeSqliteGet, Table.selectByKey, Table.insertOrReplace,
          jsonParse, buildCacheKey]
  · simp [sqlite3Get, Table.selectByKey, Table.insertOrReplace,
          jsonParse, buildCacheKey]

/-- C2 (amended): on a row whose metadata column is valid JSON, a value
column that parses to a falsy JSON value is reported by both adapters as
the miss result `none`, exactly as for an absent row. -/
theorem falsy_value_is_miss ( keyPrefix : Option String) (t : Table) (key : String)
    (row : Row) (v m : Json)
    (hrow : Table.selectByKey t (buildCacheKey key keyPrefix) = some row)
    (hv : jsonParse row.value = .ok v)
    (hfalsy : v.falsy = true)
    (hm : jsonParse row.metadata = .ok m) :
    nodeSqliteGet keyPrefix t key = .ok none ∧
    sqlite3Get keyPrefix t key = .ok none := by
  constructor <;> simp [nodeSqliteGet, sqlite3Get, hrow, hv, hm, hfalsy]

/-- Witness for `falsy_value_is_miss`: a stored value `0` with well-formed
metadata reads back as a miss on both adapters. -/
theorem falsy_value_is_miss_witness :
    Table.selectByKey
        (Table.insertOrReplace emptyTable "k"
          ⟨.jsonText (.num 0), .jsonText (.obj [])⟩)
        (buildCacheKey "k" none)
      = some ⟨.jsonText (.num 0), .jsonText (.obj [])⟩ ∧
    jsonParse (StoredText.jsonText (.num 0)) = .ok (.num 0) ∧
    (Json.num 0).falsy = true ∧
    jsonParse (StoredText.jsonText (.obj [])) = .ok (.obj []) ∧
    (nodeSqliteGet none
        (Table.insertOrReplace emptyTable "k"
          ⟨.jsonText (.num 0), .jsonText (.obj [])⟩) "k" = .ok none ∧
     sqlite3Get none
        (Table.insertOrReplace emptyTable "k"
          ⟨.jsonText (.num 0), .jsonText (.obj [])⟩) "k" = .ok none) :=
  ⟨rfl, rfl, rfl, rfl,
   falsy_value_is_miss none
     (Table.insertOrReplace emptyTable "k"
       ⟨.jsonText (.num 0), .jsonText (.obj [])⟩)
     "k" ⟨.jsonText (.num 0), .jsonText (.obj [])⟩ (.num 0) (.obj [])
     rfl rfl rfl rfl⟩

/-- C4: a row whose value column holds text that is not valid JSON makes
get fail on both adapters — the synchronous one throws, the promise-based
one rejects — and the failure is propagated to the caller, not swallowed. -/
theorem invalid_value_get_fails ( keyPrefix : Option String) (t : Table)
    (key : String) (row : Row)
    (hrow : Table.selectByKey t (buildCacheKey key keyPrefix) = some row)
    (hv : row.value = .invalidText) :
    nodeSqliteGet keyPrefix t key = .error () ∧
    sqlite3Get keyPrefix t key = .error () := by
  constructor <;> simp [nodeSqliteGet, sqlite3Get, hrow, hv, jsonParse]

/-- Witness for `invalid_value_get_fails` on a concrete row with an invalid
value column. -/
theorem invalid_value_get_fails_witness :
    Table.selectByKey
        (Table.insertOrReplace emptyTable "k" ⟨.invalidText, .jsonText .null⟩)
        (buildCacheKey "k" none)
      = some ⟨.invalidText, .jsonText .null⟩ ∧
    (nodeSqliteGet none
        (Table.insertOrReplace emptyTable "k" ⟨.invalidText, .jsonText .null⟩)
        "k" = .error () ∧
     sqlite3Get none
        (Table.insertOrReplace emptyTable "k" ⟨.invalidText, .jsonText .null⟩)
        "k" = .error ()) :=
  ⟨rfl,
   invalid_value_get_fails none
     (Table.insertOrReplace emptyTable "k" ⟨.invalidText, .jsonText .null⟩)
     "k" ⟨.invalidText, .jsonText .null⟩ rfl rfl⟩

/-- C10: the metadata column is parsed before the falsy-value test, so a
row whose metadata column is not valid JSON makes get fail on both
adapters even when the value column is valid JSON — in particular even
when that value is falsy and would otherwise read as a miss. -/
theorem invalid_metadata_get_fails ( keyPrefix : Option String) (t : Table)
    (key : String) (row : Row) (v : Json)
    (hrow : Table.selectByKey t (buildCacheKey key keyPrefix) = some row)
    (hv : jsonParse row.value = .ok v)
    (hm : row.metadata = .invalidText) :
    nodeSqliteGet keyPrefix t key = .error () ∧
    sqlite3Get keyPrefix t key = .error () := by
  have hval : row.value = .jsonText v := by
    cases hr : row.value with
    | jsonText j =>
      rw [hr] at hv
      simp [jsonParse] at hv
      rw [hv]
    | invalidText =>
      rw [hr] at hv
      simp [jsonParse] at hv
  constructor <;> simp [nodeSqliteGet, sqlite3Get, hrow, hval, hm, jsonParse]

/-- Witness for `invalid_metadata_get_fails` on a row whose value column
parses to the falsy value `false` while the metadata column is invalid. -/
theorem invalid_metadata_get_fails_witness :
    Table.selectByKey
        (Table.insertOrReplace emptyTable "j"
          ⟨.jsonText (.bool false), .invalidText⟩)
        (buildCacheKey "j" none)
      = some ⟨.jsonText (.bool false), .invalidText⟩ ∧
    jsonParse (StoredText.jsonText (.bool false)) = .ok (.bool false) ∧
    (nodeSqliteGet none
        (Table.insertOrReplace emptyTable "j"
          ⟨.jsonText (.bool false), .invalidText⟩) "j" = .error () ∧
     sqlite3Get none
        (Table.insertOrReplace emptyTable "j"
          ⟨.jsonText (.bool false), .invalidText⟩) "j" = .error ()) :=
  ⟨rfl, rfl,
   invalid_metadata_get_fails none
     (Table.insertOrReplace emptyTable "j"
       ⟨.jsonText (.bool false), .invalidText⟩)
     "j" ⟨.jsonText (.bool false), .invalidText⟩ (.bool false) rfl rfl rfl⟩

/-- C5: prefix isolation.  Setting the same base key through two adapters
configured with distinct nonempty prefixes `a` and `b` over the same table
writes two independent rows, stored under `a:key` and `b:key`, and get
through each adapter returns only the entry written under its own prefix. -/
theorem keyPrefix_isolation (totalTtl : MetadataObj → TtlTotal)
    (a b : String) (ha : a ≠ "") (hb : b ≠ "") (hab : a ≠ b)
    (t : Table) (key : String) (e1 e2 : SetEntry)
    (h1 : e1.value.falsy = false) (h2 : e2.value.falsy = false)
    (t2 : Table)
    (ht2 : t2 = (nodeSqliteSet totalTtl (some b)
        (nodeSqliteSet totalTtl (some a) t key e1).1 key e2).1) :
    t2 (a ++ ":" ++ key)
      = some ⟨jsonStringify e1.value,
          jsonStringify (.obj (spreadWithTtl e1.metadata
            (totalTtl e1.metadata).stored))⟩ ∧
    t2 (b ++ ":" ++ key)
      = some ⟨jsonStringify e2.value,
          jsonStringify (.obj (spreadWithTtl e2.metadata
            (totalTtl e2.metadata).stored))⟩ ∧
    nodeSqliteGet (some a) t2 key
      = .ok (some ⟨e1.value,
          .obj (spreadWithTtl e1.metadata (totalTtl e1.metadata).stored)⟩) ∧
    nodeSqliteGet (some b) t2 key
      = .ok (some ⟨e2.value,
          .obj (spreadWithTtl e2.metadata (totalTtl e2.metadata).stored)⟩) := by
  subst ht2
  have hka : buildCacheKey key (some a) = a ++ ":" ++ key := by
    simp [buildCacheKey, ha]
  have hkb : buildCacheKey key (some b) = b ++ ":" ++ key := by
    simp [buildCacheKey, hb]
  have hne : a ++ ":" ++ key ≠ b ++ ":" ++ key := by
    intro h
    exact hab (colonKey_injective a b key h)
  refine ⟨?_, ?_, ?_, ?_⟩
  · simp [nodeSqliteSet, Table.insertOrReplace, hka, hkb, hne]
  · simp [nodeSqliteSet, Table.insertOrReplace, hka, hkb]
  · simp [nodeSqliteGet, nodeSqliteSet, Table.selectByKey, Table.insertOrReplace,
          hka, hkb, hne, jsonParse, jsonStringify, h1]
  · simp [nodeSqliteGet, nodeSqliteSet, Table.selectByKey, Table.insertOrReplace,
          hka, hkb, jsonParse, jsonStringify, h2]

/-- Witness for `keyPrefix_isolation` with prefixes `a` and `b`, base key
`k`, and two different stored values. -/
theorem keyPrefix_isolation_witness :
    "a" ≠ "" ∧ "b" ≠ "" ∧ "a" ≠ "b" ∧
    (Json.num 1).falsy = false ∧ (Json.num 2).falsy = false ∧
    ((nodeSqliteSet (fun _ => .finite 5) (some "b")
        (nodeSqliteSet (fun _ => .finite 5) (some "a") emptyTable "k"
          ⟨.num 1, []⟩).1 "k" ⟨.num 2, []⟩).1 ("a" ++ ":" ++ "k")
        = some ⟨.jsonText (.num 1), .jsonText (.obj [("ttl", .num 5)])⟩ ∧
     (nodeSqliteSet (fun _ => .finite 5) (some "b")
        (nodeSqliteSet (fun _ => .finite 5) (some "a") emptyTable "k"
          ⟨.num 1, []⟩).1 "k" ⟨.num 2, []⟩).1 ("b" ++ ":" ++ "k")
        = some ⟨.jsonText (.num 2), .jsonText (.obj [("ttl", .num 5)])⟩ ∧
     nodeSqliteGet (some "a")
        (nodeSqliteSet (fun _ => .finite 5) (some "b")
          (nodeSqliteSet (fun _ => .finite 5) (some "a") emptyTable "k"
            ⟨.num 1, []⟩).1 "k" ⟨.num 2, []⟩).1 "k"
        = .ok (some ⟨.num 1, .obj [("ttl", .num 5)]⟩) ∧
     nodeSqliteGet (some "b")
        (nodeSqliteSet (fun _ => .finite 5) (some "b")
          (nodeSqliteSet (fun _ => .finite 5) (some "a") emptyTable "k"
            ⟨.num 1, []⟩).1 "k" ⟨.num 2, []⟩).1 "k"
        = .ok (some ⟨.num 2, .obj [("ttl", .num 5)]⟩)) :=
  ⟨by decide, by decide, by decide, rfl, rfl,
   keyPrefix_isolation (fun _ => .finite 5) "a" "b"
     (by decide) (by decide) (by decide)
     emptyTable "k" ⟨.num 1, []⟩ ⟨.num 2, []⟩ rfl rfl
     (nodeSqliteSet (fun _ => .finite 5) (some "b")
       (nodeSqliteSet (fun _ => .finite 5) (some "a") emptyTable "k"
         ⟨.num 1, []⟩).1 "k" ⟨.num 2, []⟩).1 rfl⟩

end Cachified
